import Mathlib

/-!
Shallow embedding of the core conversion pipeline of
`src/video_to_avif.py` (the `convert_video` function, lines 53-133),
together with theorems checking the specification's claims about it.

The Python function receives a parameter dictionary, builds two ffmpeg
command token lists (pass 1 and pass 2), runs them sequentially through
`subprocess.run(..., check=True, ...)`, and classifies the outcome by
exception type, showing a tkinter message box and returning a boolean.

Modelling choices:
* the parameter dictionary is embedded as a structure holding exactly
  the string-valued keys `convert_video` reads (the GUI guarantees all
  keys are present);
* `subprocess.run` is abstracted as an injected runner mapping a
  command token list to a `RunOutcome` (process completed with an exit
  code and captured stdout/stderr, raised `FileNotFoundError` on
  launch, or raised some other exception);
* the observable behaviour of one call - the boolean return value, the
  message box shown, and the ordered list of commands handed to the
  runner - is collected in a `ConvertOutcome` record.
-/

namespace VideoToAvif

/-- The parameter dictionary handed to `convert_video`, restricted to the
keys the function reads (`params.get(...)` at lines 60-81).  The GUI layer
always supplies all keys, so each field is a plain `String`. -/
structure Params where
  scale_filter_avif : String
  scale_filter_webp : String
  max_width_avif : String
  max_width_webp : String
  frame_rate_avif : String
  frame_rate_webp : String
  crf : String
  cpu_used : String
  output_quality_webp : String
  compression_level : String
  preset : String
deriving DecidableEq, Repr

/-- The `encoder_config` dictionary built at lines 65-82. -/
structure EncoderConfig where
  cv : String
  param1_key : String
  param1_val : String
  param2_key : String
  param2_val : String
  extra_args : List String
deriving DecidableEq, Repr

/-- Lines 60-62: the common scale filter, selected by format. -/
def scale_filter (format_type : String) (params : Params) : String :=
  if format_type = "AVIF" then params.scale_filter_avif else params.scale_filter_webp

/-- Lines 60-62: the common max width, selected by format. -/
def max_width (format_type : String) (params : Params) : String :=
  if format_type = "AVIF" then params.max_width_avif else params.max_width_webp

/-- Lines 60-62: the common frame rate, selected by format. -/
def frame_rate (format_type : String) (params : Params) : String :=
  if format_type = "AVIF" then params.frame_rate_avif else params.frame_rate_webp

/-- Lines 65-82: the format-specific encoder configuration.  The `if`
branches on the exact string "AVIF"; every other format value takes the
WebP branch (`else: # WebP`). -/
def encoder_config (format_type : String) (params : Params) : EncoderConfig :=
  if format_type = "AVIF" then
    { cv := "libaom-av1"
      param1_key := "-crf", param1_val := params.crf
      param2_key := "-cpu-used", param2_val := params.cpu_used
      extra_args := ["-b:v", "0", "-pix_fmt", "yuv420p"] }
  else
    { cv := "libwebp"
      param1_key := "-quality", param1_val := params.output_quality_webp
      param2_key := "-compression_level", param2_val := params.compression_level
      extra_args := ["-preset", params.preset] }

/-- Lines 85-97: the pass-1 (analysis) command token list, written out in
full as in the source (`*encoder_config['extra_args']` splices the extras
into the flat list). -/
def first_pass (input_file format_type : String) (params : Params)
    (ffmpeg_path : String) : List String :=
  let ec := encoder_config format_type params
  [ffmpeg_path,
   "-i", input_file,
   "-vf", "scale=" ++ max_width format_type params ++ ":-2:flags="
            ++ scale_filter format_type params,
   "-r", frame_rate format_type params,
   "-c:v", ec.cv,
   ec.param1_key, ec.param1_val,
   ec.param2_key, ec.param2_val]
  ++ ec.extra_args
  ++ ["-pass", "1", "-f", "null", "-"]

/-- Lines 100-112: the pass-2 (output) command token list, written out in
full as in the source. -/
def second_pass (input_file output_file format_type : String) (params : Params)
    (ffmpeg_path : String) : List String :=
  let ec := encoder_config format_type params
  [ffmpeg_path,
   "-i", input_file,
   "-vf", "scale=" ++ max_width format_type params ++ ":-2:flags="
            ++ scale_filter format_type params,
   "-r", frame_rate format_type params,
   "-c:v", ec.cv,
   ec.param1_key, ec.param1_val,
   ec.param2_key, ec.param2_val]
  ++ ec.extra_args
  ++ ["-pass", "2", "-loop", "0", output_file]

/-- Specification-side notion: the tokens the spec says the two passes
must share verbatim - executable, input, scale filter, frame rate, codec,
the two primary quality knobs, and the fixed extra arguments. -/
def common_tokens (input_file format_type : String) (params : Params)
    (ffmpeg_path : String) : List String :=
  let ec := encoder_config format_type params
  [ffmpeg_path,
   "-i", input_file,
   "-vf", "scale=" ++ max_width format_type params ++ ":-2:flags="
            ++ scale_filter format_type params,
   "-r", frame_rate format_type params,
   "-c:v", ec.cv,
   ec.param1_key, ec.param1_val,
   ec.param2_key, ec.param2_val] ++ ec.extra_args

/-- Outcome of one `subprocess.run(cmd, check=True, stdout=PIPE,
stderr=PIPE, text=True)` call: the process ran to completion with an exit
code and captured stdout/stderr text, or the launch raised
`FileNotFoundError`, or some other exception carrying a message was
raised. -/
inductive RunOutcome where
  | completed (exitCode : Nat) (stdout stderr : String)
  | fileNotFound
  | otherError (msg : String)
deriving DecidableEq, Repr

/-- A tkinter message box shown by `convert_video`: either
`messagebox.showinfo` or `messagebox.showerror`, with title and text. -/
inductive Dialog where
  | showinfo (title message : String)
  | showerror (title message : String)
deriving DecidableEq, Repr

/-- Observable behaviour of one `convert_video` call: the boolean it
returns, the message box it shows, and the commands it handed to
`subprocess.run`, in order. -/
structure ConvertOutcome where
  retval : Bool
  dialog : Dialog
  invoked : List (List String)
deriving DecidableEq, Repr

/-- `Path(s).name`: the final component of a slash-separated path (the
characters after the last separator). -/
def pathName (s : String) : String :=
  String.mk ((s.data.reverse.takeWhile (fun c => c ≠ '/')).reverse)

/-- Lines 114-133 of `convert_video`: run pass 1, then pass 2, under the
`try` block whose handlers map `CalledProcessError` (non-zero exit under
`check=True`) to a "Conversion Error" box, `FileNotFoundError` to an
"Error: ffmpeg not found" box, and any other exception to an "Unknown
Error" box, returning `False`; success of both passes shows a "Success"
box and returns `True`.  The runner stands for `subprocess.run`. -/
def convert_video (input_file output_file format_type : String)
    (params : Params) (ffmpeg_path : String)
    (runner : List String → RunOutcome) : ConvertOutcome :=
  let fp := first_pass input_file format_type params ffmpeg_path
  let sp := second_pass input_file output_file format_type params ffmpeg_path
  match runner fp with
  | .completed ec1 _ stderr1 =>
    if ec1 = 0 then
      match runner sp with
      | .completed ec2 _ stderr2 =>
        if ec2 = 0 then
          { retval := true
            dialog := .showinfo "Success"
              ("Successfully converted " ++ pathName input_file ++ " to "
                ++ pathName output_file)
            invoked := [fp, sp] }
        else
          { retval := false
            dialog := .showerror "Conversion Error"
              ("Error converting " ++ pathName input_file ++ ": " ++ stderr2)
            invoked := [fp, sp] }
      | .fileNotFound =>
        { retval := false
          dialog := .showerror "Error"
            ("Error: ffmpeg not found at " ++ ffmpeg_path
              ++ ". Please ensure the path is correct.")
          invoked := [fp, sp] }
      | .otherError msg =>
        { retval := false
          dialog := .showerror "Unknown Error"
            ("An unexpected error occurred: " ++ msg)
          invoked := [fp, sp] }
    else
      { retval := false
        dialog := .showerror "Conversion Error"
          ("Error converting " ++ pathName input_file ++ ": " ++ stderr1)
        invoked := [fp] }
  | .fileNotFound =>
    { retval := false
      dialog := .showerror "Error"
        ("Error: ffmpeg not found at " ++ ffmpeg_path
          ++ ". Please ensure the path is correct.")
      invoked := [fp] }
  | .otherError msg =>
    { retval := false
      dialog := .showerror "Unknown Error"
        ("An unexpected error occurred: " ++ msg)
      invoked := [fp] }

/-- A run outcome counts as a pass success exactly when the process
completed with exit status 0 (`subprocess.run(..., check=True)` raises
`CalledProcessError` on any other exit status). -/
def RunOutcome.isOk : RunOutcome → Bool
  | .completed ec _ _ => ec == 0
  | _ => false

/-- The "ffmpeg not found" error text shown at line 129. -/
def notFoundMsg (ffmpeg_path : String) : String :=
  "Error: ffmpeg not found at " ++ ffmpeg_path
    ++ ". Please ensure the path is correct."

/-- The "Conversion Error" text shown at line 126, carrying the captured
stderr of the failing pass verbatim. -/
def convErrorMsg (input_file stderr : String) : String :=
  "Error converting " ++ pathName input_file ++ ": " ++ stderr

/-- The success text shown at line 123. -/
def successMsg (input_file output_file : String) : String :=
  "Successfully converted " ++ pathName input_file ++ " to "
    ++ pathName output_file

/-- The "Unknown Error" text shown at line 132. -/
def unknownErrorMsg (msg : String) : String :=
  "An unexpected error occurred: " ++ msg

/-- The AVIF end-to-end bundle of the specification's scenario; the
WebP-side fields carry the application's defaults and are not read on the
AVIF branch. -/
def avifBundle : Params :=
  { scale_filter_avif := "lanczos", scale_filter_webp := "lanczos"
    max_width_avif := "720", max_width_webp := "720"
    frame_rate_avif := "16", frame_rate_webp := "15"
    crf := "30", cpu_used := "8"
    output_quality_webp := "30", compression_level := "6"
    preset := "default" }

/-- The WebP end-to-end bundle of the specification's scenario; the
AVIF-side fields carry the application's defaults and are not read on the
WebP branch. -/
def webpBundle : Params :=
  { scale_filter_avif := "lanczos", scale_filter_webp := "lanczos"
    max_width_avif := "720", max_width_webp := "720"
    frame_rate_avif := "16", frame_rate_webp := "15"
    crf := "30", cpu_used := "8"
    output_quality_webp := "40", compression_level := "5"
    preset := "photo" }

/-- Test runner: every launch succeeds with exit status 0. -/
def runnerOk : List String → RunOutcome := fun _ => .completed 0 "" ""

/-- Test runner: the pass-1 command exits with status 1 and stderr
"boom"; every other command succeeds. -/
def runnerFailPass1 : List String → RunOutcome := fun c =>
  if c = first_pass "input.mp4" "AVIF" avifBundle "ffmpeg"
  then .completed 1 "" "boom" else .completed 0 "" ""

/-- Test runner: the pass-2 command exits with status 1 and stderr
"boom"; every other command succeeds. -/
def runnerFailPass2 : List String → RunOutcome := fun c =>
  if c = second_pass "input.mp4" "output.avif" "AVIF" avifBundle "ffmpeg"
  then .completed 1 "" "boom" else .completed 0 "" ""

/-- Test runner: every launch raises `FileNotFoundError`, as happens when
the configured encoder path does not resolve to an executable. -/
def runnerNotFound : List String → RunOutcome := fun _ => .fileNotFound

/-- Test runner: the pass-2 launch raises `FileNotFoundError`; every
other command succeeds. -/
def runnerNotFoundPass2 : List String → RunOutcome := fun c =>
  if c = second_pass "input.mp4" "output.avif" "AVIF" avifBundle "ffmpeg"
  then .fileNotFound else .completed 0 "" ""

/-! ### Helper lemmas -/

/-- The two pass command lists decompose as the shared tokens followed by
their pass-specific tails. -/
theorem pass_decomp (input_file output_file format_type : String)
    (params : Params) (ffmpeg_path : String) :
    first_pass input_file format_type params ffmpeg_path
      = common_tokens input_file format_type params ffmpeg_path
          ++ ["-pass", "1", "-f", "null", "-"]
    ∧ second_pass input_file output_file format_type params ffmpeg_path
      = common_tokens input_file format_type params ffmpeg_path
          ++ ["-pass", "2", "-loop", "0", output_file] := by
  constructor <;> simp [first_pass, second_pass, common_tokens]

/-- The pass-1 and pass-2 command lists are never the same command. -/
theorem first_pass_ne_second_pass (input_file output_file format_type : String)
    (params : Params) (ffmpeg_path : String) :
    first_pass input_file format_type params ffmpeg_path
      ≠ second_pass input_file output_file format_type params ffmpeg_path := by
  intro h
  rw [(pass_decomp input_file output_file format_type params ffmpeg_path).1,
      (pass_decomp input_file output_file format_type params ffmpeg_path).2] at h
  have h2 := List.append_cancel_left h
  simp at h2

/-- Shape of the call when pass 1 exits non-zero: `CalledProcessError`
handler, pass 2 never launched. -/
theorem convert_pass1_fails (input_file output_file format_type : String)
    (params : Params) (ffmpeg_path : String)
    (runner : List String → RunOutcome) (ec : Nat) (so se : String)
    (h : runner (first_pass input_file format_type params ffmpeg_path)
          = .completed ec so se) (hne : ec ≠ 0) :
    convert_video input_file output_file format_type params ffmpeg_path runner
      = { retval := false
          dialog := .showerror "Conversion Error" (convErrorMsg input_file se)
          invoked := [first_pass input_file format_type params ffmpeg_path] } := by
  simp [convert_video, h, hne, convErrorMsg]

/-- Shape of the call when the pass-1 launch raises `FileNotFoundError`. -/
theorem convert_pass1_notFound (input_file output_file format_type : String)
    (params : Params) (ffmpeg_path : String)
    (runner : List String → RunOutcome)
    (h : runner (first_pass input_file format_type params ffmpeg_path)
          = .fileNotFound) :
    convert_video input_file output_file format_type params ffmpeg_path runner
      = { retval := false
          dialog := .showerror "Error" (notFoundMsg ffmpeg_path)
          invoked := [first_pass input_file format_type params ffmpeg_path] } := by
  simp [convert_video, h, notFoundMsg]

/-- Shape of the call when the pass-1 launch raises some other
exception. -/
theorem convert_pass1_other (input_file output_file format_type : String)
    (params : Params) (ffmpeg_path : String)
    (runner : List String → RunOutcome) (m : String)
    (h : runner (first_pass input_file format_type params ffmpeg_path)
          = .otherError m) :
    convert_video input_file output_file format_type params ffmpeg_path runner
      = { retval := false
          dialog := .showerror "Unknown Error" (unknownErrorMsg m)
          invoked := [first_pass input_file format_type params ffmpeg_path] } := by
  simp [convert_video, h, unknownErrorMsg]

/-- Shape of the call when pass 1 exits 0 and pass 2 exits non-zero. -/
theorem convert_pass2_fails (input_file output_file format_type : String)
    (params : Params) (ffmpeg_path : String)
    (runner : List String → RunOutcome) (so1 se1 : String)
    (ec2 : Nat) (so2 se2 : String)
    (h1 : runner (first_pass input_file format_type params ffmpeg_path)
          = .completed 0 so1 se1)
    (h2 : runner (second_pass input_file output_file format_type params ffmpeg_path)
          = .completed ec2 so2 se2) (hne : ec2 ≠ 0) :
    convert_video input_file output_file format_type params ffmpeg_path runner
      = { retval := false
          dialog := .showerror "Conversion Error" (convErrorMsg input_file se2)
          invoked := [first_pass input_file format_type params ffmpeg_path,
                      second_pass input_file output_file format_type params ffmpeg_path] } := by
  simp [convert_video, h1, h2, hne, convErrorMsg]

/-- Shape of the call when pass 1 exits 0 and the pass-2 launch raises
`FileNotFoundError`. -/
theorem convert_pass2_notFound (input_file output_file format_type : String)
    (params : Params) (ffmpeg_path : String)
    (runner : List String → RunOutcome) (so1 se1 : String)
    (h1 : runner (first_pass input_file format_type params ffmpeg_path)
          = .completed 0 so1 se1)
    (h2 : runner (second_pass input_file output_file format_type params ffmpeg_path)
          = .fileNotFound) :
    convert_video input_file output_file format_type params ffmpeg_path runner
      = { retval := false
          dialog := .showerror "Error" (notFoundMsg ffmpeg_path)
          invoked := [first_pass input_file format_type params ffmpeg_path,
                      second_pass input_file output_file format_type params ffmpeg_path] } := by
  simp [convert_video, h1, h2, notFoundMsg]

/-- Shape of the call when pass 1 exits 0 and the pass-2 launch raises
some other exception. -/
theorem convert_pass2_other (input_file output_file format_type : String)
    (params : Params) (ffmpeg_path : String)
    (runner : List String → RunOutcome) (so1 se1 : String) (m : String)
    (h1 : runner (first_pass input_file format_type params ffmpeg_path)
          = .completed 0 so1 se1)
    (h2 : runner (second_pass input_file output_file format_type params ffmpeg_path)
          = .otherError m) :
    convert_video input_file output_file format_type params ffmpeg_path runner
      = { retval := false
          dialog := .showerror "Unknown Error" (unknownErrorMsg m)
          invoked := [first_pass input_file format_type params ffmpeg_path,
                      second_pass input_file output_file format_type params ffmpeg_path] } := by
  simp [convert_video, h1, h2, unknownErrorMsg]

/-- Shape of the call when both passes exit 0. -/
theorem convert_success (input_file output_file format_type : String)
    (params : Params) (ffmpeg_path : String)
    (runner : List String → RunOutcome) (so1 se1 so2 se2 : String)
    (h1 : runner (first_pass input_file format_type params ffmpeg_path)
          = .completed 0 so1 se1)
    (h2 : runner (second_pass input_file output_file format_type params ffmpeg_path)
          = .completed 0 so2 se2) :
    convert_video input_file output_file format_type params ffmpeg_path runner
      = { retval := true
          dialog := .showinfo "Success" (successMsg input_file output_file)
          invoked := [first_pass input_file format_type params ffmpeg_path,
                      second_pass input_file output_file format_type params ffmpeg_path] } := by
  simp [convert_video, h1, h2, successMsg]

/-- Every call hands the runner either just the pass-1 command or the
pass-1 command followed by the pass-2 command, in that order. -/
theorem invoked_cases (input_file output_file format_type : String)
    (params : Params) (ffmpeg_path : String)
    (runner : List String → RunOutcome) :
    (convert_video input_file output_file format_type params ffmpeg_path runner).invoked
        = [first_pass input_file format_type params ffmpeg_path]
    ∨ (convert_video input_file output_file format_type params ffmpeg_path runner).invoked
        = [first_pass input_file format_type params ffmpeg_path,
           second_pass input_file output_file format_type params ffmpeg_path] := by
  rcases h1 : runner (first_pass input_file format_type params ffmpeg_path)
    with ⟨ec1, so1, se1⟩ | _ | _
  · by_cases he1 : ec1 = 0
    · subst he1
      rcases h2 : runner (second_pass input_file output_file format_type params ffmpeg_path)
        with ⟨ec2, so2, se2⟩ | _ | _
      · by_cases he2 : ec2 = 0
        · subst he2
          rw [convert_success input_file output_file format_type params ffmpeg_path
                runner so1 se1 so2 se2 h1 h2]
          exact Or.inr rfl
        · rw [convert_pass2_fails input_file output_file format_type params ffmpeg_path
                runner so1 se1 ec2 so2 se2 h1 h2 he2]
          exact Or.inr rfl
      · rw [convert_pass2_notFound input_file output_file format_type params ffmpeg_path
              runner so1 se1 h1 h2]
        exact Or.inr rfl
      · rw [convert_pass2_other input_file output_file format_type params ffmpeg_path
              runner so1 se1 _ h1 h2]
        exact Or.inr rfl
    · rw [convert_pass1_fails input_file output_file format_type params ffmpeg_path
            runner ec1 so1 se1 h1 he1]
      exact Or.inl rfl
  · rw [convert_pass1_notFound input_file output_file format_type params ffmpeg_path
          runner h1]
    exact Or.inl rfl
  · rw [convert_pass1_other input_file output_file format_type params ffmpeg_path
          runner _ h1]
    exact Or.inl rfl

/-- The pass-2 command is handed to the runner only when pass 1 exited
with status 0. -/
theorem second_pass_runs_only_after_ok (input_file output_file format_type : String)
    (params : Params) (ffmpeg_path : String)
    (runner : List String → RunOutcome)
    (hmem : second_pass input_file output_file format_type params ffmpeg_path
        ∈ (convert_video input_file output_file format_type params ffmpeg_path runner).invoked) :
    (runner (first_pass input_file format_type params ffmpeg_path)).isOk = true := by
  rcases h1 : runner (first_pass input_file format_type params ffmpeg_path)
    with ⟨ec1, so1, se1⟩ | _ | _
  · by_cases he1 : ec1 = 0
    · subst he1
      simp [RunOutcome.isOk]
    · rw [convert_pass1_fails input_file output_file format_type params ffmpeg_path
            runner ec1 so1 se1 h1 he1] at hmem
      simp at hmem
      exact absurd hmem.symm
        (first_pass_ne_second_pass input_file output_file format_type params ffmpeg_path)
  · rw [convert_pass1_notFound input_file output_file format_type params ffmpeg_path
          runner h1] at hmem
    simp at hmem
    exact absurd hmem.symm
      (first_pass_ne_second_pass input_file output_file format_type params ffmpeg_path)
  · rw [convert_pass1_other input_file output_file format_type params ffmpeg_path
          runner _ h1] at hmem
    simp at hmem
    exact absurd hmem.symm
      (first_pass_ne_second_pass input_file output_file format_type params ffmpeg_path)

/-! ### Claim theorems -/

/-- C1: for every format and every parameter bundle, the pass-1 and
pass-2 command token lists built by `convert_video` consist of the same
shared tokens (executable, input, scale filter, frame rate, codec, the
two quality knobs, and the fixed extras) and differ only in the
pass-number token ("1" vs "2") and the trailing sink/output tokens
("-f null -" vs "-loop 0 <output path>"). -/
theorem c1_two_pass_token_agreement (input_file output_file format_type : String)
    (params : Params) (ffmpeg_path : String) :
    first_pass input_file format_type params ffmpeg_path
      = common_tokens input_file format_type params ffmpeg_path
          ++ ["-pass", "1", "-f", "null", "-"]
    ∧ second_pass input_file output_file format_type params ffmpeg_path
      = common_tokens input_file format_type params ffmpeg_path
          ++ ["-pass", "2", "-loop", "0", output_file] := by
  constructor <;> simp [first_pass, second_pass, common_tokens]

/-- C7: for the specification's AVIF scenario bundle, both pass command
lists contain the scale-filter, frame-rate, codec, crf, cpu-used and
fixed-extra token runs, pass 1 ends with `-pass 1 -f null -`, and pass 2
ends with `-pass 2 -loop 0 output.avif`. -/
theorem c7_avif_end_to_end :
    ["-vf", "scale=720:-2:flags=lanczos"]
        <:+: first_pass "input.mp4" "AVIF" avifBundle "ffmpeg"
    ∧ ["-r", "16"] <:+: first_pass "input.mp4" "AVIF" avifBundle "ffmpeg"
    ∧ ["-c:v", "libaom-av1"] <:+: first_pass "input.mp4" "AVIF" avifBundle "ffmpeg"
    ∧ ["-crf", "30"] <:+: first_pass "input.mp4" "AVIF" avifBundle "ffmpeg"
    ∧ ["-cpu-used", "8"] <:+: first_pass "input.mp4" "AVIF" avifBundle "ffmpeg"
    ∧ ["-b:v", "0", "-pix_fmt", "yuv420p"]
        <:+: first_pass "input.mp4" "AVIF" avifBundle "ffmpeg"
    ∧ ["-pass", "1", "-f", "null", "-"]
        <:+ first_pass "input.mp4" "AVIF" avifBundle "ffmpeg"
    ∧ ["-vf", "scale=720:-2:flags=lanczos"]
        <:+: second_pass "input.mp4" "output.avif" "AVIF" avifBundle "ffmpeg"
    ∧ ["-r", "16"] <:+: second_pass "input.mp4" "output.avif" "AVIF" avifBundle "ffmpeg"
    ∧ ["-c:v", "libaom-av1"]
        <:+: second_pass "input.mp4" "output.avif" "AVIF" avifBundle "ffmpeg"
    ∧ ["-crf", "30"] <:+: second_pass "input.mp4" "output.avif" "AVIF" avifBundle "ffmpeg"
    ∧ ["-cpu-used", "8"]
        <:+: second_pass "input.mp4" "output.avif" "AVIF" avifBundle "ffmpeg"
    ∧ ["-b:v", "0", "-pix_fmt", "yuv420p"]
        <:+: second_pass "input.mp4" "output.avif" "AVIF" avifBundle "ffmpeg"
    ∧ ["-pass", "2", "-loop", "0", "output.avif"]
        <:+ second_pass "input.mp4" "output.avif" "AVIF" avifBundle "ffmpeg" := by
  decide

/-- C8: for every WebP bundle the resolved configuration uses codec
"libwebp", maps the quality key to the bundle's output-quality value and
the compression key to its compression-level value, and carries the
preset token and preset value as fixed extras; for the scenario bundle
(preset "photo", quality "40", compression level "5") both pass command
lists contain the run
`-c:v libwebp -quality 40 -compression_level 5 -preset photo`. -/
theorem c8_webp_mapping (p : Params) :
    encoder_config "WebP" p
      = { cv := "libwebp"
          param1_key := "-quality", param1_val := p.output_quality_webp
          param2_key := "-compression_level", param2_val := p.compression_level
          extra_args := ["-preset", p.preset] }
    ∧ ["-c:v", "libwebp", "-quality", "40", "-compression_level", "5",
       "-preset", "photo"]
        <:+: first_pass "input.mp4" "WebP" webpBundle "ffmpeg"
    ∧ ["-c:v", "libwebp", "-quality", "40", "-compression_level", "5",
       "-preset", "photo"]
        <:+: second_pass "input.mp4" "output.webp" "WebP" webpBundle "ffmpeg" := by
  refine ⟨?_, by decide, by decide⟩
  simp [encoder_config]

/-- C9: every format value other than the exact string "AVIF" silently
takes the WebP branch: the libwebp configuration is built and the
WebP-suffixed scale-filter, max-width and frame-rate entries are read. -/
theorem c9_non_avif_takes_webp_branch (format_type : String)
    (h : format_type ≠ "AVIF") (p : Params) :
    encoder_config format_type p
      = { cv := "libwebp"
          param1_key := "-quality", param1_val := p.output_quality_webp
          param2_key := "-compression_level", param2_val := p.compression_level
          extra_args := ["-preset", p.preset] }
    ∧ scale_filter format_type p = p.scale_filter_webp
    ∧ max_width format_type p = p.max_width_webp
    ∧ frame_rate format_type p = p.frame_rate_webp := by
  refine ⟨?_, ?_, ?_, ?_⟩ <;>
    simp [encoder_config, scale_filter, max_width, frame_rate, h]

/-- C9 witness: the lowercase string "avif" is not "AVIF" and is routed
to the WebP branch. -/
theorem c9_witness :
    ("avif" ≠ "AVIF"
      ∧ (encoder_config "avif" avifBundle
          = { cv := "libwebp"
              param1_key := "-quality", param1_val := avifBundle.output_quality_webp
              param2_key := "-compression_level"
              param2_val := avifBundle.compression_level
              extra_args := ["-preset", avifBundle.preset] }
        ∧ scale_filter "avif" avifBundle = avifBundle.scale_filter_webp
        ∧ max_width "avif" avifBundle = avifBundle.max_width_webp
        ∧ frame_rate "avif" avifBundle = avifBundle.frame_rate_webp)) :=
  ⟨by decide, c9_non_avif_takes_webp_branch "avif" (by decide) avifBundle⟩

/-- C2: if pass 1 exits non-zero, the runner is handed only the pass-1
command (pass 2 is never launched, pass 1 runs exactly once), the call
returns `False` with the pass-1 failure dialog; moreover, for any runner,
the pass-2 command is handed out only when pass 1 exited 0, and no pass
is ever invoked more than once per call. -/
theorem c2_pass1_failure_short_circuits (input_file output_file format_type : String)
    (params : Params) (ffmpeg_path : String)
    (runner runner' : List String → RunOutcome) (ec : Nat) (so se : String)
    (h : runner (first_pass input_file format_type params ffmpeg_path)
          = .completed ec so se) (hne : ec ≠ 0) :
    (convert_video input_file output_file format_type params ffmpeg_path runner).invoked
        = [first_pass input_file format_type params ffmpeg_path]
    ∧ (convert_video input_file output_file format_type params ffmpeg_path runner).retval
        = false
    ∧ (convert_video input_file output_file format_type params ffmpeg_path runner).dialog
        = .showerror "Conversion Error" (convErrorMsg input_file se)
    ∧ (second_pass input_file output_file format_type params ffmpeg_path
          ∈ (convert_video input_file output_file format_type params ffmpeg_path runner').invoked
        → (runner' (first_pass input_file format_type params ffmpeg_path)).isOk = true)
    ∧ ((convert_video input_file output_file format_type params ffmpeg_path runner').invoked
          = [first_pass input_file format_type params ffmpeg_path]
        ∨ (convert_video input_file output_file format_type params ffmpeg_path runner').invoked
          = [first_pass input_file format_type params ffmpeg_path,
             second_pass input_file output_file format_type params ffmpeg_path])
    ∧ first_pass input_file format_type params ffmpeg_path
        ≠ second_pass input_file output_file format_type params ffmpeg_path := by
  rw [convert_pass1_fails input_file output_file format_type params ffmpeg_path
        runner ec so se h hne]
  exact ⟨rfl, rfl, rfl,
    second_pass_runs_only_after_ok input_file output_file format_type params
      ffmpeg_path runner',
    invoked_cases input_file output_file format_type params ffmpeg_path runner',
    first_pass_ne_second_pass input_file output_file format_type params ffmpeg_path⟩

/-- C2 witness: a concrete AVIF call whose pass 1 exits 1 with stderr
"boom" runs only pass 1 and fails with the pass-1 diagnostic. -/
theorem c2_witness :
    (convert_video "input.mp4" "output.avif" "AVIF" avifBundle "ffmpeg"
        runnerFailPass1).invoked
      = [first_pass "input.mp4" "AVIF" avifBundle "ffmpeg"]
    ∧ (convert_video "input.mp4" "output.avif" "AVIF" avifBundle "ffmpeg"
        runnerFailPass1).retval = false
    ∧ (convert_video "input.mp4" "output.avif" "AVIF" avifBundle "ffmpeg"
        runnerFailPass1).dialog
      = .showerror "Conversion Error" (convErrorMsg "input.mp4" "boom")
    ∧ (second_pass "input.mp4" "output.avif" "AVIF" avifBundle "ffmpeg"
          ∈ (convert_video "input.mp4" "output.avif" "AVIF" avifBundle "ffmpeg"
              runnerOk).invoked
        → (runnerOk (first_pass "input.mp4" "AVIF" avifBundle "ffmpeg")).isOk = true)
    ∧ ((convert_video "input.mp4" "output.avif" "AVIF" avifBundle "ffmpeg"
          runnerOk).invoked
          = [first_pass "input.mp4" "AVIF" avifBundle "ffmpeg"]
        ∨ (convert_video "input.mp4" "output.avif" "AVIF" avifBundle "ffmpeg"
            runnerOk).invoked
          = [first_pass "input.mp4" "AVIF" avifBundle "ffmpeg",
             second_pass "input.mp4" "output.avif" "AVIF" avifBundle "ffmpeg"])
    ∧ first_pass "input.mp4" "AVIF" avifBundle "ffmpeg"
        ≠ second_pass "input.mp4" "output.avif" "AVIF" avifBundle "ffmpeg" :=
  c2_pass1_failure_short_circuits "input.mp4" "output.avif" "AVIF" avifBundle
    "ffmpeg" runnerFailPass1 runnerOk 1 "" "boom" (by decide) (by decide)

/-- C3 counterexample: a call whose pass 1 fails with stderr "boom" and a
call whose pass 2 fails with the same stderr produce the same return
value and the same dialog, so the caller-visible result does not identify
the number of the failing pass. -/
theorem c3_counterexample :
    runnerFailPass1 (first_pass "input.mp4" "AVIF" avifBundle "ffmpeg")
      = .completed 1 "" "boom"
    ∧ runnerFailPass2 (first_pass "input.mp4" "AVIF" avifBundle "ffmpeg")
      = .completed 0 "" ""
    ∧ runnerFailPass2 (second_pass "input.mp4" "output.avif" "AVIF" avifBundle "ffmpeg")
      = .completed 1 "" "boom"
    ∧ (convert_video "input.mp4" "output.avif" "AVIF" avifBundle "ffmpeg"
        runnerFailPass1).retval
      = (convert_video "input.mp4" "output.avif" "AVIF" avifBundle "ffmpeg"
          runnerFailPass2).retval
    ∧ (convert_video "input.mp4" "output.avif" "AVIF" avifBundle "ffmpeg"
        runnerFailPass1).dialog
      = (convert_video "input.mp4" "output.avif" "AVIF" avifBundle "ffmpeg"
          runnerFailPass2).dialog := by
  decide

/-- C3 amended: whichever pass exits non-zero, the call returns `False`
and shows the "Conversion Error" dialog carrying that pass's captured
stderr verbatim; the dialog does not state the failing pass's number. -/
theorem c3_failing_pass_stderr_verbatim (input_file output_file format_type : String)
    (params : Params) (ffmpeg_path : String)
    (runner : List String → RunOutcome)
    (ec1 ec2 : Nat) (so1 se1 so2 : String) (e : String)
    (h : (runner (first_pass input_file format_type params ffmpeg_path)
            = .completed ec1 so1 e ∧ ec1 ≠ 0)
       ∨ (runner (first_pass input_file format_type params ffmpeg_path)
            = .completed 0 so1 se1
          ∧ runner (second_pass input_file output_file format_type params ffmpeg_path)
            = .completed ec2 so2 e
          ∧ ec2 ≠ 0)) :
    (convert_video input_file output_file format_type params ffmpeg_path runner).retval
        = false
    ∧ (convert_video input_file output_file format_type params ffmpeg_path runner).dialog
        = .showerror "Conversion Error" (convErrorMsg input_file e) := by
  rcases h with ⟨h1, hne⟩ | ⟨h1, h2, hne⟩
  · rw [convert_pass1_fails input_file output_file format_type params ffmpeg_path
          runner ec1 so1 e h1 hne]
    exact ⟨rfl, rfl⟩
  · rw [convert_pass2_fails input_file output_file format_type params ffmpeg_path
          runner so1 se1 ec2 so2 e h1 h2 hne]
    exact ⟨rfl, rfl⟩

/-- C3 amended witness: a concrete call whose pass 2 exits 1 with stderr
"boom" returns `False` with the "Conversion Error" dialog carrying
"boom". -/
theorem c3_witness :
    (convert_video "input.mp4" "output.avif" "AVIF" avifBundle "ffmpeg"
        runnerFailPass2).retval = false
    ∧ (convert_video "input.mp4" "output.avif" "AVIF" avifBundle "ffmpeg"
        runnerFailPass2).dialog
      = .showerror "Conversion Error" (convErrorMsg "input.mp4" "boom") :=
  c3_failing_pass_stderr_verbatim "input.mp4" "output.avif" "AVIF" avifBundle
    "ffmpeg" runnerFailPass2 0 1 "" "" "" "boom"
    (Or.inr ⟨by decide, by decide, by decide⟩)

/-- C4: if the launch raises `FileNotFoundError` — at pass 1, or at
pass 2 after pass 1 exited 0 — the call shows the "ffmpeg not found"
dialog (not the "Conversion Error" and not the "Unknown Error" one) and
returns `False`, regardless of which pass triggered it. -/
theorem c4_not_found_either_pass (input_file output_file format_type : String)
    (params : Params) (ffmpeg_path : String)
    (runner : List String → RunOutcome)
    (h : runner (first_pass input_file format_type params ffmpeg_path)
          = .fileNotFound
       ∨ ((runner (first_pass input_file format_type params ffmpeg_path)).isOk = true
          ∧ runner (second_pass input_file output_file format_type params ffmpeg_path)
            = .fileNotFound)) :
    (convert_video input_file output_file format_type params ffmpeg_path runner).retval
        = false
    ∧ (convert_video input_file output_file format_type params ffmpeg_path runner).dialog
        = .showerror "Error" (notFoundMsg ffmpeg_path) := by
  rcases h with h1 | ⟨hok, h2⟩
  · rw [convert_pass1_notFound input_file output_file format_type params ffmpeg_path
          runner h1]
    exact ⟨rfl, rfl⟩
  · rcases h1 : runner (first_pass input_file format_type params ffmpeg_path)
      with ⟨ec1, so1, se1⟩ | _ | _ <;> rw [h1] at hok <;>
      simp [RunOutcome.isOk] at hok
    subst hok
    rw [convert_pass2_notFound input_file output_file format_type params ffmpeg_path
          runner so1 se1 h1 h2]
    exact ⟨rfl, rfl⟩

/-- C4 witness: a concrete call whose pass 1 exits 0 and whose pass-2
launch raises `FileNotFoundError` shows the "ffmpeg not found" dialog. -/
theorem c4_witness :
    (convert_video "input.mp4" "output.avif" "AVIF" avifBundle "ffmpeg"
        runnerNotFoundPass2).retval = false
    ∧ (convert_video "input.mp4" "output.avif" "AVIF" avifBundle "ffmpeg"
        runnerNotFoundPass2).dialog
      = .showerror "Error" (notFoundMsg "ffmpeg") :=
  c4_not_found_either_pass "input.mp4" "output.avif" "AVIF" avifBundle "ffmpeg"
    runnerNotFoundPass2 (Or.inr ⟨by decide, by decide⟩)

/-- C5: the call returns `True` (with the success dialog naming the
output) exactly when both passes exit 0; every other outcome returns
`False` together with an error dialog, so no failure is silent; and no
pass is ever invoked more than once (the runner sees either just pass 1
or pass 1 then pass 2, and the two commands are distinct). -/
theorem c5_success_iff_both_passes_ok (input_file output_file format_type : String)
    (params : Params) (ffmpeg_path : String)
    (runner : List String → RunOutcome) :
    ((convert_video input_file output_file format_type params ffmpeg_path runner).retval
        = true
      ↔ (runner (first_pass input_file format_type params ffmpeg_path)).isOk = true
        ∧ (runner (second_pass input_file output_file format_type params ffmpeg_path)).isOk
            = true)
    ∧ ((convert_video input_file output_file format_type params ffmpeg_path runner).retval
          = true
        → (convert_video input_file output_file format_type params ffmpeg_path runner).dialog
          = .showinfo "Success" (successMsg input_file output_file))
    ∧ ((convert_video input_file output_file format_type params ffmpeg_path runner).retval
          = false
        → ∃ t m,
            (convert_video input_file output_file format_type params ffmpeg_path runner).dialog
              = .showerror t m)
    ∧ ((convert_video input_file output_file format_type params ffmpeg_path runner).invoked
          = [first_pass input_file format_type params ffmpeg_path]
        ∨ (convert_video input_file output_file format_type params ffmpeg_path runner).invoked
          = [first_pass input_file format_type params ffmpeg_path,
             second_pass input_file output_file format_type params ffmpeg_path])
    ∧ first_pass input_file format_type params ffmpeg_path
        ≠ second_pass input_file output_file format_type params ffmpeg_path := by
  refine ⟨?_, ?_, ?_,
    invoked_cases input_file output_file format_type params ffmpeg_path runner,
    first_pass_ne_second_pass input_file output_file format_type params ffmpeg_path⟩ <;>
  · rcases h1 : runner (first_pass input_file format_type params ffmpeg_path)
      with ⟨ec1, so1, se1⟩ | _ | _
    · by_cases he1 : ec1 = 0
      · subst he1
        rcases h2 : runner (second_pass input_file output_file format_type params ffmpeg_path)
          with ⟨ec2, so2, se2⟩ | _ | _
        · by_cases he2 : ec2 = 0
          · subst he2
            rw [convert_success input_file output_file format_type params ffmpeg_path
                  runner so1 se1 so2 se2 h1 h2]
            simp [RunOutcome.isOk]
          · rw [convert_pass2_fails input_file output_file format_type params ffmpeg_path
                  runner so1 se1 ec2 so2 se2 h1 h2 he2]
            simp [RunOutcome.isOk, he2]
        · rw [convert_pass2_notFound input_file output_file format_type params ffmpeg_path
                runner so1 se1 h1 h2]
          simp [RunOutcome.isOk]
        · rw [convert_pass2_other input_file output_file format_type params ffmpeg_path
                runner so1 se1 _ h1 h2]
          simp [RunOutcome.isOk]
      · rw [convert_pass1_fails input_file output_file format_type params ffmpeg_path
              runner ec1 so1 se1 h1 he1]
        simp [RunOutcome.isOk, he1]
    · rw [convert_pass1_notFound input_file output_file format_type params ffmpeg_path
            runner h1]
      simp [RunOutcome.isOk]
    · rw [convert_pass1_other input_file output_file format_type params ffmpeg_path
            runner _ h1]
      simp [RunOutcome.isOk]

/-- C5 witness: with a runner on which every pass exits 0, the concrete
call satisfies the success characterisation. -/
theorem c5_witness :
    ((convert_video "input.mp4" "output.avif" "AVIF" avifBundle "ffmpeg"
          runnerOk).retval = true
      ↔ (runnerOk (first_pass "input.mp4" "AVIF" avifBundle "ffmpeg")).isOk = true
        ∧ (runnerOk (second_pass "input.mp4" "output.avif" "AVIF" avifBundle
            "ffmpeg")).isOk = true)
    ∧ ((convert_video "input.mp4" "output.avif" "AVIF" avifBundle "ffmpeg"
          runnerOk).retval = true
        → (convert_video "input.mp4" "output.avif" "AVIF" avifBundle "ffmpeg"
            runnerOk).dialog
          = .showinfo "Success" (successMsg "input.mp4" "output.avif"))
    ∧ ((convert_video "input.mp4" "output.avif" "AVIF" avifBundle "ffmpeg"
          runnerOk).retval = false
        → ∃ t m,
            (convert_video "input.mp4" "output.avif" "AVIF" avifBundle "ffmpeg"
              runnerOk).dialog = .showerror t m)
    ∧ ((convert_video "input.mp4" "output.avif" "AVIF" avifBundle "ffmpeg"
          runnerOk).invoked
          = [first_pass "input.mp4" "AVIF" avifBundle "ffmpeg"]
        ∨ (convert_video "input.mp4" "output.avif" "AVIF" avifBundle "ffmpeg"
            runnerOk).invoked
          = [first_pass "input.mp4" "AVIF" avifBundle "ffmpeg",
             second_pass "input.mp4" "output.avif" "AVIF" avifBundle "ffmpeg"])
    ∧ first_pass "input.mp4" "AVIF" avifBundle "ffmpeg"
        ≠ second_pass "input.mp4" "output.avif" "AVIF" avifBundle "ffmpeg" :=
  c5_success_iff_both_passes_ok "input.mp4" "output.avif" "AVIF" avifBundle
    "ffmpeg" runnerOk

/-- C6 counterexample: with a runner on which every launch raises
`FileNotFoundError` (the encoder path does not resolve to an executable),
the call does show the "ffmpeg not found" dialog, but the runner is
invoked once — with the pass-1 command — not zero times as the claim
states. -/
theorem c6_counterexample :
    (convert_video "input.mp4" "output.avif" "AVIF" avifBundle "ffmpeg"
        runnerNotFound).dialog
      = .showerror "Error" (notFoundMsg "ffmpeg")
    ∧ (convert_video "input.mp4" "output.avif" "AVIF" avifBundle "ffmpeg"
        runnerNotFound).invoked
      = [first_pass "input.mp4" "AVIF" avifBundle "ffmpeg"]
    ∧ (convert_video "input.mp4" "output.avif" "AVIF" avifBundle "ffmpeg"
        runnerNotFound).invoked ≠ [] := by
  decide

/-- C6 amended: if the encoder path does not resolve to an executable
(every launch raises `FileNotFoundError`), the call returns the "ffmpeg
not found" outcome after attempting exactly one launch — the pass-1
command; pass 2 is never attempted. -/
theorem c6_notfound_attempts_only_pass1 (input_file output_file format_type : String)
    (params : Params) (ffmpeg_path : String)
    (runner : List String → RunOutcome)
    (h : ∀ c, runner c = RunOutcome.fileNotFound) :
    (convert_video input_file output_file format_type params ffmpeg_path runner).retval
        = false
    ∧ (convert_video input_file output_file format_type params ffmpeg_path runner).dialog
        = .showerror "Error" (notFoundMsg ffmpeg_path)
    ∧ (convert_video input_file output_file format_type params ffmpeg_path runner).invoked
        = [first_pass input_file format_type params ffmpeg_path] := by
  rw [convert_pass1_notFound input_file output_file format_type params ffmpeg_path
        runner (h _)]
  exact ⟨rfl, rfl, rfl⟩

/-- C6 amended witness: the concrete all-not-found call fails with the
"ffmpeg not found" dialog after one launch attempt. -/
theorem c6_witness :
    (convert_video "input.mp4" "output.avif" "AVIF" avifBundle "ffmpeg"
        runnerNotFound).retval = false
    ∧ (convert_video "input.mp4" "output.avif" "AVIF" avifBundle "ffmpeg"
        runnerNotFound).dialog
      = .showerror "Error" (notFoundMsg "ffmpeg")
    ∧ (convert_video "input.mp4" "output.avif" "AVIF" avifBundle "ffmpeg"
        runnerNotFound).invoked
      = [first_pass "input.mp4" "AVIF" avifBundle "ffmpeg"] :=
  c6_notfound_attempts_only_pass1 "input.mp4" "output.avif" "AVIF" avifBundle
    "ffmpeg" runnerNotFound (fun _ => rfl)

/-- C10: every call returns one of the four classified outcomes — the
success dialog with `True`, or `False` with the "Conversion Error",
"ffmpeg not found", or "Unknown Error" dialog — so every runner outcome,
including arbitrary other exceptions, is caught and mapped to a result
and none escapes. -/
theorem c10_total_classification (input_file output_file format_type : String)
    (params : Params) (ffmpeg_path : String)
    (runner : List String → RunOutcome) :
    ((convert_video input_file output_file format_type params ffmpeg_path runner).retval
        = true
      ∧ (convert_video input_file output_file format_type params ffmpeg_path runner).dialog
        = .showinfo "Success" (successMsg input_file output_file))
    ∨ ((convert_video input_file output_file format_type params ffmpeg_path runner).retval
        = false
      ∧ ∃ e,
          (convert_video input_file output_file format_type params ffmpeg_path runner).dialog
            = .showerror "Conversion Error" (convErrorMsg input_file e))
    ∨ ((convert_video input_file output_file format_type params ffmpeg_path runner).retval
        = false
      ∧ (convert_video input_file output_file format_type params ffmpeg_path runner).dialog
        = .showerror "Error" (notFoundMsg ffmpeg_path))
    ∨ ((convert_video input_file output_file format_type params ffmpeg_path runner).retval
        = false
      ∧ ∃ m,
          (convert_video input_file output_file format_type params ffmpeg_path runner).dialog
            = .showerror "Unknown Error" (unknownErrorMsg m)) := by
  rcases h1 : runner (first_pass input_file format_type params ffmpeg_path)
    with ⟨ec1, so1, se1⟩ | _ | _
  · by_cases he1 : ec1 = 0
    · subst he1
      rcases h2 : runner (second_pass input_file output_file format_type params ffmpeg_path)
        with ⟨ec2, so2, se2⟩ | _ | _
      · by_cases he2 : ec2 = 0
        · subst he2
          rw [convert_success input_file output_file format_type params ffmpeg_path
                runner so1 se1 so2 se2 h1 h2]
          exact Or.inl ⟨rfl, rfl⟩
        · rw [convert_pass2_fails input_file output_file format_type params ffmpeg_path
                runner so1 se1 ec2 so2 se2 h1 h2 he2]
          exact Or.inr (Or.inl ⟨rfl, se2, rfl⟩)
      · rw [convert_pass2_notFound input_file output_file format_type params ffmpeg_path
              runner so1 se1 h1 h2]
        exact Or.inr (Or.inr (Or.inl ⟨rfl, rfl⟩))
      · rw [convert_pass2_other input_file output_file format_type params ffmpeg_path
              runner so1 se1 _ h1 h2]
        exact Or.inr (Or.inr (Or.inr ⟨rfl, _, rfl⟩))
    · rw [convert_pass1_fails input_file output_file format_type params ffmpeg_path
            runner ec1 so1 se1 h1 he1]
      exact Or.inr (Or.inl ⟨rfl, se1, rfl⟩)
  · rw [convert_pass1_notFound input_file output_file format_type params ffmpeg_path
          runner h1]
    exact Or.inr (Or.inr (Or.inl ⟨rfl, rfl⟩))
  · rw [convert_pass1_other input_file output_file format_type params ffmpeg_path
          runner _ h1]
    exact Or.inr (Or.inr (Or.inr ⟨rfl, _, rfl⟩))

end VideoToAvif
